import Mathlib

/-!
Verification development for the options-yield-scanner repository.

The repository consists of two near-identical Python programs,
`src/options_scanner.py` (CLI) and `src/options_scanner_app.py` (web UI).
Both contain a Black–Scholes delta function and a screening pipeline that
annotates per-expiration option-chain batches with derived yield metrics,
filters them, concatenates the survivors and ranks the result.

This file gives a shallow embedding of that core:

* the pricing model `black_scholes_delta` is embedded over `ℝ`, with the
  standard normal cumulative distribution function taken from the
  Mathlib Gaussian measure (the Python code uses `scipy.stats.norm.cdf`);
* the screening pipeline is embedded over `ℚ` (the Python code computes
  with IEEE floats; all pipeline-level claims are order/structure claims,
  so exact rational arithmetic is the faithful idealisation), with the
  per-contract delta abstracted as a function parameter `deltaFn`
  standing for `black_scholes_delta` applied at the fixed spot
  price, risk-free rate and option type — exactly how the Python code
  closes over those values in its `df.apply(lambda row: ...)` call.
-/

namespace OptionsScanner

/-- Standard normal cumulative distribution function, the embedding of
`scipy.stats.norm.cdf` used by both source files. -/
noncomputable def normCdf : ℝ → ℝ :=
  fun x => ProbabilityTheory.cdf (ProbabilityTheory.gaussianReal 0 1) x

/-- Monotonicity of the standard normal CDF. -/
theorem normCdf_mono : Monotone normCdf :=
  fun _ _ h => ProbabilityTheory.monotone_cdf _ h

/-- Embedding of `black_scholes_delta(S, K, T, r, sigma, option_type)` from
`src/options_scanner.py` lines 7–15 (identical in
`src/options_scanner_app.py` lines 8–15): if `T <= 0 or sigma <= 0` it
returns `0.0`; otherwise it computes
`d1 = (log(S/K) + (r + 0.5*sigma**2)*T) / (sigma*sqrt(T))` and returns
`norm.cdf(d1)` for a `call` and `norm.cdf(d1) - 1` for anything else. -/
noncomputable def black_scholes_delta (S K T r sigma : ℝ) (option_type : String) : ℝ :=
  if T ≤ 0 ∨ sigma ≤ 0 then 0.0
  else
    let d1 : ℝ := (Real.log (S / K) + (r + 0.5 * sigma ^ 2) * T) / (sigma * Real.sqrt T)
    if option_type = "call" then normCdf d1 else normCdf d1 - 1

/-- C3: for every combination of spot, strike, rate and option type, the
delta function returns exactly `0.0` whenever `timeYears ≤ 0` or
`volatility ≤ 0` (the embedding is a total function, so no error can be
raised on this branch). -/
theorem black_scholes_delta_degenerate (S K T r sigma : ℝ) (option_type : String)
    (h : T ≤ 0 ∨ sigma ≤ 0) :
    black_scholes_delta S K T r sigma option_type = 0 := by
  rw [black_scholes_delta, if_pos h]
  norm_num

/-- Witness for C3 at the concrete input `S=1, K=1, T=0, r=0, sigma=1`. -/
theorem black_scholes_delta_degenerate_witness :
    black_scholes_delta 1 1 0 0 1 "call" = 0 :=
  black_scholes_delta_degenerate 1 1 0 0 1 "call" (Or.inl le_rfl)

/-- C6: put–call delta parity. For every positive spot, strike, time and
volatility, the delta computed with option type `call` minus the delta
computed with option type `put` on the same inputs equals exactly `1`. -/
theorem black_scholes_delta_parity (S K T r sigma : ℝ)
    (_hS : 0 < S) (_hK : 0 < K) (hT : 0 < T) (hsigma : 0 < sigma) :
    black_scholes_delta S K T r sigma "call" - black_scholes_delta S K T r sigma "put" = 1 := by
  have hneg : ¬(T ≤ 0 ∨ sigma ≤ 0) := by push_neg; exact ⟨hT, hsigma⟩
  rw [black_scholes_delta, black_scholes_delta, if_neg hneg, if_neg hneg]
  simp

/-- Witness for C6 at the concrete input `S=1, K=1, T=1, r=0, sigma=1`. -/
theorem black_scholes_delta_parity_witness :
    black_scholes_delta 1 1 1 0 1 "call" - black_scholes_delta 1 1 1 0 1 "put" = 1 :=
  black_scholes_delta_parity 1 1 1 0 1 one_pos one_pos one_pos one_pos

/-- C9: for fixed positive strike, time and volatility and any rate, the
delta function is non-decreasing in the spot price, both for calls and
for puts, over the valid domain of strictly positive spots. -/
theorem black_scholes_delta_mono_spot (K T r sigma S1 S2 : ℝ)
    (hK : 0 < K) (hT : 0 < T) (hsigma : 0 < sigma) (hS1 : 0 < S1) (h12 : S1 ≤ S2) :
    black_scholes_delta S1 K T r sigma "call" ≤ black_scholes_delta S2 K T r sigma "call"
    ∧ black_scholes_delta S1 K T r sigma "put" ≤ black_scholes_delta S2 K T r sigma "put" := by
  have hneg : ¬(T ≤ 0 ∨ sigma ≤ 0) := by push_neg; exact ⟨hT, hsigma⟩
  have hd1 :
      (Real.log (S1 / K) + (r + 0.5 * sigma ^ 2) * T) / (sigma * Real.sqrt T)
        ≤ (Real.log (S2 / K) + (r + 0.5 * sigma ^ 2) * T) / (sigma * Real.sqrt T) := by
    have hden : 0 < sigma * Real.sqrt T := by positivity
    have hlog : Real.log (S1 / K) ≤ Real.log (S2 / K) :=
      Real.log_le_log (by positivity) (by gcongr)
    gcongr
  have hcdf : normCdf ((Real.log (S1 / K) + (r + 0.5 * sigma ^ 2) * T) / (sigma * Real.sqrt T))
      ≤ normCdf ((Real.log (S2 / K) + (r + 0.5 * sigma ^ 2) * T) / (sigma * Real.sqrt T)) :=
    normCdf_mono hd1
  simp only [black_scholes_delta, if_neg hneg]
  constructor
  · simpa using hcdf
  · simpa using sub_le_sub_right hcdf 1

/-- Witness for C9 at the concrete input `K=1, T=1, r=0, sigma=1, S1=1,
S2=2`. -/
theorem black_scholes_delta_mono_spot_witness :
    black_scholes_delta 1 1 1 0 1 "call" ≤ black_scholes_delta 2 1 1 0 1 "call"
    ∧ black_scholes_delta 1 1 1 0 1 "put" ≤ black_scholes_delta 2 1 1 0 1 "put" :=
  black_scholes_delta_mono_spot 1 1 0 1 1 2 one_pos one_pos one_pos one_pos one_le_two

/-!
Screening pipeline embedding.

The pipeline is embedded from `main` of `src/options_scanner.py`
lines 17–139; `src/options_scanner_app.py` lines 28–133 is the same
pipeline with two cosmetic differences noted in the doc comments below.
The user-supplied screening parameters are collected into a record; the
expiration list (already restricted to dates at or before the maximum
expiration date, as the source does at fetch time) is modelled as a list
of per-expiration provider results, each either an exception message or
the pair of the days-to-expiration of the expiration and its contract
list.
-/

/-- Screening parameters, as read from the user prompts in
`src/options_scanner.py` lines 20–27. `delta_target` is `none` when the
user pressed Enter to skip (`delta_target = float(...) if ... else None`);
`delta_bound_type` and `option_type` are raw strings, as in the source. -/
structure ScreeningParams where
  option_type : String
  delta_target : Option ℚ
  delta_bound_type : String
  min_weekly_yield : ℚ
  max_bid_ask_spread : ℚ
deriving DecidableEq

/-- One option contract row as supplied by the provider chain for one
expiration (the dataframe columns actually read by the pipeline). -/
structure ContractQuote where
  contractSymbol : String
  strike : ℚ
  bid : ℚ
  ask : ℚ
  impliedVolatility : ℚ
deriving DecidableEq, Inhabited

/-- One fully annotated dataframe row: the input quote plus every derived
column the pipeline computes in `src/options_scanner.py` lines 52–101. -/
structure ScoredRow where
  quote : ContractQuote
  days_to_exp : Int
  tYears : ℚ
  mid : ℚ
  bid_ask_spread : ℚ
  delta_calc : ℚ
  intrinsic : ℚ
  extrinsic_premium : ℚ
  total_yield : ℚ
  weekly_yield : ℚ
  expected_utility_yield : ℚ
  expected_weekly_yield : ℚ
deriving DecidableEq, Inhabited

/-- Annotation of one contract row: the derived-column formulas of
`src/options_scanner.py` lines 54–56, 59–69, 84–101; `deltaFn` stands for
`black_scholes_delta` with the spot price, risk-free rate and
option type of the scan already applied, taking the strike, time-to-expiration
and implied volatility, exactly the closure passed to `df.apply`. -/
def mkRow (p : ScreeningParams) (spot : ℚ) (deltaFn : ℚ → ℚ → ℚ → ℚ)
    (dte : Int) (q : ContractQuote) : ScoredRow :=
  let tYears : ℚ := (dte : ℚ) / 365
  let mid : ℚ := (q.bid + q.ask) / 2
  let spread : ℚ := q.ask - q.bid
  let delta_calc : ℚ := deltaFn q.strike tYears q.impliedVolatility
  let intrinsic : ℚ :=
    if p.option_type = "call" then max (spot - q.strike) 0 else max (q.strike - spot) 0
  let extrinsic : ℚ := mid - intrinsic
  let total_yield : ℚ := extrinsic / q.strike
  let euy : ℚ :=
    if p.option_type = "put" then total_yield * (1 - |delta_calc|)
    else total_yield * |delta_calc|
  { quote := q
    days_to_exp := dte
    tYears := tYears
    mid := mid
    bid_ask_spread := spread
    delta_calc := delta_calc
    intrinsic := intrinsic
    extrinsic_premium := extrinsic
    total_yield := total_yield
    weekly_yield := total_yield / ((dte : ℚ) / 7)
    expected_utility_yield := euy
    expected_weekly_yield := euy / ((dte : ℚ) / 7) }

/-- Python truthiness of the optional delta target: `if delta_target:` is
taken when the value is neither `None` nor `0.0`. -/
def pyTruthy : Option ℚ → Bool
  | none => false
  | some t => decide (t ≠ 0)

/-- The delta-filter stage, `src/options_scanner.py` lines 71–82: guarded
by the truthiness of `delta_target`; for a `put` the `min` bound keeps
`delta_calc <= -abs(delta_target)` and the `max` bound keeps
`delta_calc >= -abs(delta_target)`; any other option type takes the call
branch, where `min` keeps `delta_calc >= delta_target` and `max` keeps
`delta_calc <= delta_target`. A bound string other than `min`/`max`
falls through the `if`/`elif` chain and leaves the rows unchanged. (The
app variant, `src/options_scanner_app.py` lines 73–83, replaces the
the `elif` on `max` by a bare `else`; its bound selector only offers
`min` and `max`, on which the two variants agree.) -/
def deltaFilterStage (tgt : Option ℚ) (bound option_type : String)
    (rows : List ScoredRow) : List ScoredRow :=
  if pyTruthy tgt then
    let t := tgt.getD 0
    if option_type = "put" then
      if bound = "min" then rows.filter (fun row => decide (row.delta_calc ≤ -|t|))
      else if bound = "max" then rows.filter (fun row => decide (-|t| ≤ row.delta_calc))
      else rows
    else
      if bound = "min" then rows.filter (fun row => decide (t ≤ row.delta_calc))
      else if bound = "max" then rows.filter (fun row => decide (row.delta_calc ≤ t))
      else rows
  else rows

/-- Per-expiration stage, `src/options_scanner.py` lines 50–103: filter
to strictly positive days-to-expiration, annotate each surviving row,
filter on bid-ask spread and positive implied volatility, apply the delta
filter, and keep rows whose weekly yield meets the threshold. (The source
interleaves column assignments with the row filters; every derived column
is a pure function of the row, so annotating each row up front is
semantically identical.) -/
def processExpiration (p : ScreeningParams) (spot : ℚ) (deltaFn : ℚ → ℚ → ℚ → ℚ)
    (dte : Int) (quotes : List ContractQuote) : List ScoredRow :=
  let rows := (quotes.filter (fun _ => decide (0 < dte))).map (mkRow p spot deltaFn dte)
  let rows := rows.filter (fun row => decide (row.bid_ask_spread ≤ p.max_bid_ask_spread))
  let rows := rows.filter (fun row => decide (0 < row.quote.impliedVolatility))
  let rows := deltaFilterStage p.delta_target p.delta_bound_type p.option_type rows
  rows.filter (fun row => decide (p.min_weekly_yield ≤ row.weekly_yield))

/-- Boolean comparison realising the descending `sort_values` call on the
column pair `weekly_yield`, `expected_weekly_yield`: row `a` may precede
row `b` when the weekly yield of `a` is larger, or the weekly yields are
equal and the expected weekly yield of `a` is at least that of `b`. -/
def rankLE (a b : ScoredRow) : Bool :=
  decide (b.weekly_yield < a.weekly_yield)
    || (decide (a.weekly_yield = b.weekly_yield)
        && decide (b.expected_weekly_yield ≤ a.expected_weekly_yield))

/-- Ranking stage, `src/options_scanner.py` line 126: a stable descending
lexicographic sort on `(weekly_yield, expected_weekly_yield)`. With more
than one sort column, pandas `sort_values` uses `lexsort_indexer`, a
sequence of stable sorts, so a stable merge sort with the comparison
`rankLE` is the faithful model. -/
def rank (rows : List ScoredRow) : List ScoredRow := rows.mergeSort rankLE

/-- Terminal states of one scan, `src/options_scanner.py` lines 111–139:
either the "No options matched your criteria." message (taken when
`all_options` is the empty list), or the uncaught `IndexError` raised by
`final_df.iloc[0]` when the concatenated table has no rows, or the ranked
table together with its printed `head(10)` prefix and the best candidate
`final_df.iloc[0]`. -/
inductive ScanOutcome where
  | noCandidates : ScanOutcome
  | indexError : ScanOutcome
  | table : List ScoredRow → List ScoredRow → ScoredRow → ScanOutcome
deriving DecidableEq

/-- Whether a scan run produced a ranked table and best-candidate
summary. -/
def ScanOutcome.producedTable : ScanOutcome → Bool
  | ScanOutcome.table _ _ _ => true
  | _ => false

/-- Result of one scan: the skip messages printed by the per-expiration
`except` handler, and the terminal outcome. -/
structure ScanReport where
  skips : List String
  outcome : ScanOutcome
deriving DecidableEq

/-- The per-expiration loop, `src/options_scanner.py` lines 46–109: each
provider result is either processed and appended to `all_options` (an
empty survivor list is appended too), or, when it raises, its message is
recorded and the loop continues with the remaining expirations. -/
def scanLoop (p : ScreeningParams) (spot : ℚ) (deltaFn : ℚ → ℚ → ℚ → ℚ) :
    List (Except String (Int × List ContractQuote)) →
      List (List ScoredRow) × List String
  | [] => ([], [])
  | Except.ok (dte, quotes) :: rest =>
    let acc := scanLoop p spot deltaFn rest
    (processExpiration p spot deltaFn dte quotes :: acc.1, acc.2)
  | Except.error msg :: rest =>
    let acc := scanLoop p spot deltaFn rest
    (acc.1, msg :: acc.2)

/-- The whole scan after the provider calls, `src/options_scanner.py`
lines 44–139: run the per-expiration loop, report "no candidates" only
when `all_options` is the empty list, otherwise concatenate, rank, and
take `head(10)` and `iloc[0]`; `iloc[0]` on an empty concatenation is the
uncaught `IndexError`. -/
def scan (p : ScreeningParams) (spot : ℚ) (deltaFn : ℚ → ℚ → ℚ → ℚ)
    (exps : List (Except String (Int × List ContractQuote))) : ScanReport :=
  match scanLoop p spot deltaFn exps with
  | (all_options, skips) =>
    if all_options.isEmpty then { skips := skips, outcome := ScanOutcome.noCandidates }
    else
      match rank all_options.flatten with
      | [] => { skips := skips, outcome := ScanOutcome.indexError }
      | best :: rest =>
        { skips := skips
          outcome := ScanOutcome.table (best :: rest) ((best :: rest).take 10) best }

/-!
Concrete fixtures used by witnesses and counterexamples. All derived rows
are built through `mkRow`, so their fields are values the pipeline
itself computes.
-/

/-- Fixture parameters: calls, no delta target, zero yield threshold,
maximum spread `0.25`. -/
def pW : ScreeningParams :=
  { option_type := "call"
    delta_target := none
    delta_bound_type := "min"
    min_weekly_yield := 0
    max_bid_ask_spread := 1/4 }

/-- Fixture quote that survives every filter of `pW` at spot 50. -/
def qGood : ContractQuote :=
  { contractSymbol := "OPT1", strike := 100, bid := 1, ask := 1, impliedVolatility := 1/2 }

/-- Same numbers as `qGood` under a different contract identifier. -/
def qGoodB : ContractQuote := { qGood with contractSymbol := "OPT1B" }

/-- Fixture quote whose bid-ask spread `1.0` exceeds the `pW` maximum
spread `0.25`, so it is dropped by the spread filter. -/
def qWide : ContractQuote :=
  { contractSymbol := "OPT2", strike := 100, bid := 1, ask := 2, impliedVolatility := 1/2 }

/-- Fixture pricing function standing in for the Black–Scholes closure:
constant delta `0.5`. -/
def deltaW : ℚ → ℚ → ℚ → ℚ := fun _ _ _ => 1/2

/-- Fixture annotated row produced by the pipeline function `mkRow` (its
`delta_calc` is `0.5` and its `weekly_yield` is `0.01`). -/
def rowW : ScoredRow := mkRow pW 50 deltaW 7 qGood

/-- Fixture row identical to `rowW` except for the contract identifier,
hence equal on both ranking keys. -/
def rowWB : ScoredRow := mkRow pW 50 deltaW 7 qGoodB

/-- C2, counterexample to the claim as stated: `targetDelta = 0.0` is a
present value, yet `if delta_target:` is false for `0.0`, so the filter
stage keeps a call row with `delta_calc = 0.5` even though the claimed
`deltaBound = max` rule (`keep exactly delta ≤ targetDelta`) would drop
it. -/
theorem delta_filter_present_zero_counterexample :
    deltaFilterStage (some 0) "max" "call" [rowW] = [rowW]
    ∧ List.filter (fun row => decide (row.delta_calc ≤ (0 : ℚ))) [rowW] = [] := by
  have hδ : rowW.delta_calc = 1/2 := rfl
  constructor
  · simp [deltaFilterStage, pyTruthy]
  · simp only [List.filter_cons, List.filter_nil, hδ]
    norm_num

/-- C2 (amended): for every contract list reaching the delta-filter stage
with `targetDelta` present and nonzero, the put/min rule keeps exactly
`delta ≤ -|targetDelta|`, put/max keeps exactly `delta ≥ -|targetDelta|`,
call/min keeps exactly `delta ≥ targetDelta`, and call/max keeps exactly
`delta ≤ targetDelta`. -/
theorem delta_filter_spec (t : ℚ) (ht : t ≠ 0) (rows : List ScoredRow) :
    deltaFilterStage (some t) "min" "put" rows
        = rows.filter (fun row => decide (row.delta_calc ≤ -|t|))
    ∧ deltaFilterStage (some t) "max" "put" rows
        = rows.filter (fun row => decide (-|t| ≤ row.delta_calc))
    ∧ deltaFilterStage (some t) "min" "call" rows
        = rows.filter (fun row => decide (t ≤ row.delta_calc))
    ∧ deltaFilterStage (some t) "max" "call" rows
        = rows.filter (fun row => decide (row.delta_calc ≤ t)) := by
  simp [deltaFilterStage, pyTruthy, ht]

/-- Witness for the amended C2 at `targetDelta = 1/2` on the one-row list
`[rowW]`. -/
theorem delta_filter_spec_witness :
    ((1 : ℚ)/2 ≠ 0)
    ∧ deltaFilterStage (some (1/2)) "min" "put" [rowW]
        = [rowW].filter (fun row => decide (row.delta_calc ≤ -|(1 : ℚ)/2|)) :=
  ⟨by norm_num, (delta_filter_spec (1/2) (by norm_num) [rowW]).1⟩

/-- C5 (amended): the code performs no parameter validation. With a bound
string outside `{min, max}`, the delta-filter stage silently leaves the
rows unchanged (the `if`/`elif` chain falls through), whatever the target
and option type. -/
theorem delta_filter_invalid_bound (tgt : Option ℚ) (bound option_type : String)
    (rows : List ScoredRow) (h1 : bound ≠ "min") (h2 : bound ≠ "max") :
    deltaFilterStage tgt bound option_type rows = rows := by
  unfold deltaFilterStage
  simp [h1, h2]

/-- Witness for the amended C5 at `bound = "mid"`. -/
theorem delta_filter_invalid_bound_witness :
    ("mid" ≠ "min") ∧ ("mid" ≠ "max")
    ∧ deltaFilterStage (some (3/10)) "mid" "call" [rowW] = [rowW] :=
  ⟨by decide, by decide,
    delta_filter_invalid_bound (some (3/10)) "mid" "call" [rowW] (by decide) (by decide)⟩

/-- Fixture parameters with a present, nonzero delta target and an
invalid bound string. -/
def pBad : ScreeningParams :=
  { option_type := "call"
    delta_target := some (3/10)
    delta_bound_type := "mid"
    min_weekly_yield := 0
    max_bid_ask_spread := 1/4 }

/-- C5, counterexample to the claim as stated: with `targetDelta = 0.3`
present and `deltaBound = "mid"` (outside `{min, max}`), the scan does
not fail at all — it consumes the provider data and produces a ranked
table with no skip and no error of any kind. -/
theorem no_parameter_validation_counterexample :
    (scan pBad 50 deltaW [Except.ok (7, [qGood])]).outcome.producedTable = true
    ∧ (scan pBad 50 deltaW [Except.ok (7, [qGood])]).skips = [] := by
  have hrow : processExpiration pBad 50 deltaW 7 [qGood] = [mkRow pBad 50 deltaW 7 qGood] := by
    simp [processExpiration, deltaFilterStage, pyTruthy, mkRow, pBad, qGood, deltaW]
    norm_num
  have hloop : scanLoop pBad 50 deltaW [Except.ok (7, [qGood])]
      = ([[mkRow pBad 50 deltaW 7 qGood]], []) := by
    simp [scanLoop, hrow]
  simp [scan, hloop, rank, ScanOutcome.producedTable]

/-- Helper: the delta-filter stage never adds rows. -/
theorem deltaFilterStage_sublist (tgt : Option ℚ) (bound option_type : String)
    (rows : List ScoredRow) : (deltaFilterStage tgt bound option_type rows).Sublist rows := by
  unfold deltaFilterStage
  repeat' split
  all_goals first
    | exact List.filter_sublist _
    | exact List.Sublist.refl _

/-- C8: filtering is a pure narrowing operation — the quotes underlying
the output of the per-expiration stage form a sublist of the input contract
list, so each surviving candidate originates from one input quote and no
contract is fabricated. -/
theorem process_narrowing (p : ScreeningParams) (spot : ℚ) (deltaFn : ℚ → ℚ → ℚ → ℚ)
    (dte : Int) (quotes : List ContractQuote) :
    ((processExpiration p spot deltaFn dte quotes).map ScoredRow.quote).Sublist quotes := by
  unfold processExpiration
  have s4 := List.filter_sublist (p := fun row => decide (p.min_weekly_yield ≤ row.weekly_yield))
    (deltaFilterStage p.delta_target p.delta_bound_type p.option_type
      ((((quotes.filter (fun _ => decide (0 < dte))).map
          (mkRow p spot deltaFn dte)).filter
            (fun row => decide (row.bid_ask_spread ≤ p.max_bid_ask_spread))).filter
              (fun row => decide (0 < row.quote.impliedVolatility))))
  have s3 := deltaFilterStage_sublist p.delta_target p.delta_bound_type p.option_type
    ((((quotes.filter (fun _ => decide (0 < dte))).map
        (mkRow p spot deltaFn dte)).filter
          (fun row => decide (row.bid_ask_spread ≤ p.max_bid_ask_spread))).filter
            (fun row => decide (0 < row.quote.impliedVolatility)))
  have s2 := List.filter_sublist (p := fun row => decide (0 < row.quote.impliedVolatility))
    (((quotes.filter (fun _ => decide (0 < dte))).map
        (mkRow p spot deltaFn dte)).filter
          (fun row => decide (row.bid_ask_spread ≤ p.max_bid_ask_spread)))
  have s1 := List.filter_sublist (p := fun row => decide (row.bid_ask_spread ≤ p.max_bid_ask_spread))
    ((quotes.filter (fun _ => decide (0 < dte))).map (mkRow p spot deltaFn dte))
  have hchain := ((s4.trans s3).trans s2).trans s1
  have hmap := hchain.map ScoredRow.quote
  have hbase : (((quotes.filter (fun _ => decide (0 < dte))).map
      (mkRow p spot deltaFn dte)).map ScoredRow.quote)
        = quotes.filter (fun _ => decide (0 < dte)) := by
    rw [List.map_map]
    exact List.map_id'' (fun q => rfl) _
  rw [hbase] at hmap
  exact hmap.trans (List.filter_sublist quotes)

/-- C10: a supplied `targetDelta` of `0.0` makes the pipeline behave as
if the target were absent — the per-expiration stage is unchanged when
the present `some 0` is replaced by `none`, and the delta-filter stage
with target `some 0` keeps every row for every bound and option type. -/
theorem zero_target_skips_delta_filter (p : ScreeningParams) (spot : ℚ)
    (deltaFn : ℚ → ℚ → ℚ → ℚ) (dte : Int) (quotes : List ContractQuote)
    (h : p.delta_target = some 0) :
    processExpiration p spot deltaFn dte quotes
      = processExpiration { p with delta_target := none } spot deltaFn dte quotes
    ∧ ∀ (bound option_type : String) (rows : List ScoredRow),
        deltaFilterStage (some 0) bound option_type rows = rows := by
  have hzero : ∀ (bound option_type : String) (rows : List ScoredRow),
      deltaFilterStage (some 0) bound option_type rows = rows := by
    intro bound option_type rows
    simp [deltaFilterStage, pyTruthy]
  have hnone : ∀ (bound option_type : String) (rows : List ScoredRow),
      deltaFilterStage none bound option_type rows = rows := by
    intro bound option_type rows
    simp [deltaFilterStage, pyTruthy]
  constructor
  · simp only [processExpiration, h]
    rw [hzero, hnone]
    rfl
  · exact hzero

/-- Fixture parameters with the delta target present but zero. -/
def pZero : ScreeningParams := { pW with delta_target := some 0 }

/-- Witness for C10 at `pZero` on the one-quote list `[qGood]`. -/
theorem zero_target_skips_delta_filter_witness :
    pZero.delta_target = some 0
    ∧ processExpiration pZero 50 deltaW 7 [qGood]
        = processExpiration { pZero with delta_target := none } 50 deltaW 7 [qGood] :=
  ⟨rfl, (zero_target_skips_delta_filter pZero 50 deltaW 7 [qGood] rfl).1⟩

/-- Helper: the ranking comparison, read back as a proposition. -/
theorem rankLE_eq_true_iff (a b : ScoredRow) :
    rankLE a b = true ↔
      (b.weekly_yield < a.weekly_yield
        ∨ (a.weekly_yield = b.weekly_yield
            ∧ b.expected_weekly_yield ≤ a.expected_weekly_yield)) := by
  simp [rankLE]

/-- Helper: the ranking comparison is transitive. -/
theorem rankLE_trans : ∀ a b c : ScoredRow, rankLE a b → rankLE b c → rankLE a c := by
  intro a b c hab hbc
  rw [rankLE_eq_true_iff] at *
  rcases hab with h1 | ⟨h1, h1'⟩ <;> rcases hbc with h2 | ⟨h2, h2'⟩
  · exact Or.inl (h2.trans h1)
  · exact Or.inl (h2 ▸ h1)
  · exact Or.inl (lt_of_lt_of_le h2 h1.symm.le)
  · exact Or.inr ⟨h1.trans h2, h2'.trans h1'⟩

/-- Helper: the ranking comparison is total. -/
theorem rankLE_total : ∀ a b : ScoredRow, rankLE a b || rankLE b a := by
  intro a b
  simp only [Bool.or_eq_true, rankLE_eq_true_iff]
  rcases lt_trichotomy a.weekly_yield b.weekly_yield with h | h | h
  · exact Or.inr (Or.inl h)
  · rcases le_total b.expected_weekly_yield a.expected_weekly_yield with h' | h'
    · exact Or.inl (Or.inr ⟨h, h'⟩)
    · exact Or.inr (Or.inr ⟨h.symm, h'⟩)
  · exact Or.inl (Or.inl h)

/-- C4: the ranking stage sorts descending by `weekly_yield` with
`expected_weekly_yield` as descending tie-break (every earlier row beats
every later row in that lexicographic order), it is a permutation of its
input, and it is stable: two rows equal on both keys keep their pre-sort
relative order. -/
theorem rank_spec (rows : List ScoredRow) :
    (rank rows).Pairwise (fun a b =>
        b.weekly_yield < a.weekly_yield
        ∨ (a.weekly_yield = b.weekly_yield
            ∧ b.expected_weekly_yield ≤ a.expected_weekly_yield))
    ∧ (rank rows).Perm rows
    ∧ ∀ a b : ScoredRow, a.weekly_yield = b.weekly_yield →
        a.expected_weekly_yield = b.expected_weekly_yield →
        [a, b].Sublist rows → [a, b].Sublist (rank rows) := by
  unfold rank
  refine ⟨?_, List.mergeSort_perm rows rankLE, ?_⟩
  · exact (List.sorted_mergeSort rankLE_trans rankLE_total rows).imp
      (fun hab => (rankLE_eq_true_iff _ _).mp hab)
  · intro a b h1 h2 hsub
    exact List.pair_sublist_mergeSort rankLE_trans rankLE_total
      ((rankLE_eq_true_iff a b).mpr (Or.inr ⟨h1, le_of_eq h2.symm⟩)) hsub

/-- Witness for the stability clause of C4 on the two fixture rows that are
equal on both ranking keys. -/
theorem rank_spec_witness :
    rowW.weekly_yield = rowWB.weekly_yield
    ∧ rowW.expected_weekly_yield = rowWB.expected_weekly_yield
    ∧ [rowW, rowWB].Sublist (rank [rowW, rowWB]) :=
  ⟨rfl, rfl, (rank_spec [rowW, rowWB]).2.2 rowW rowWB rfl rfl (List.Sublist.refl _)⟩

/-- Projection of one provider result onto the survivor list the loop
appends for it: `some` of the processed rows for a successful expiration,
`none` for a raising one. -/
def okSurvivors (p : ScreeningParams) (spot : ℚ) (deltaFn : ℚ → ℚ → ℚ → ℚ) :
    Except String (Int × List ContractQuote) → Option (List ScoredRow)
  | Except.ok (dte, quotes) => some (processExpiration p spot deltaFn dte quotes)
  | Except.error _ => none

/-- Projection of one provider result onto its skip message, if any. -/
def errOf : Except String (Int × List ContractQuote) → Option String
  | Except.error msg => some msg
  | Except.ok _ => none

/-- Helper: the loop accumulates exactly the per-expiration survivor
lists of the successful expirations, in order, and exactly the messages
of the raising ones, in order. -/
theorem scanLoop_eq (p : ScreeningParams) (spot : ℚ) (deltaFn : ℚ → ℚ → ℚ → ℚ) :
    ∀ exps, scanLoop p spot deltaFn exps
      = (exps.filterMap (okSurvivors p spot deltaFn), exps.filterMap errOf)
  | [] => rfl
  | Except.ok (dte, quotes) :: rest => by
      simp [scanLoop, scanLoop_eq p spot deltaFn rest, okSurvivors, errOf]
  | Except.error msg :: rest => by
      simp [scanLoop, scanLoop_eq p spot deltaFn rest, okSurvivors, errOf]

/-- C7: a raising expiration is recorded as a skip and does not stop the
scan — whenever the successful expirations contribute at least one
survivor, the skip list is exactly the messages of the raising
expirations and
the final table is exactly the ranked concatenation of the successful
survivors of the successful expirations (with the `head(10)` shortlist and first-row best
candidate). -/
theorem scan_partial_failure (p : ScreeningParams) (spot : ℚ)
    (deltaFn : ℚ → ℚ → ℚ → ℚ) (exps : List (Except String (Int × List ContractQuote)))
    (h : (exps.filterMap (okSurvivors p spot deltaFn)).flatten ≠ []) :
    (scan p spot deltaFn exps).skips = exps.filterMap errOf
    ∧ (scan p spot deltaFn exps).outcome
        = ScanOutcome.table
            (rank ((exps.filterMap (okSurvivors p spot deltaFn)).flatten))
            ((rank ((exps.filterMap (okSurvivors p spot deltaFn)).flatten)).take 10)
            ((rank ((exps.filterMap (okSurvivors p spot deltaFn)).flatten)).headI) := by
  have hne : exps.filterMap (okSurvivors p spot deltaFn) ≠ [] := by
    intro h0
    rw [h0] at h
    simp at h
  have hrank : rank ((exps.filterMap (okSurvivors p spot deltaFn)).flatten) ≠ [] := by
    intro h0
    apply h
    have hlen := congrArg List.length h0
    rw [rank, List.length_mergeSort] at hlen
    exact List.eq_nil_of_length_eq_zero hlen
  obtain ⟨b, rest, hbr⟩ := List.exists_cons_of_ne_nil hrank
  simp only [scan, scanLoop_eq, List.isEmpty_eq_false.mpr hne, Bool.false_eq_true,
    if_false, hbr, List.headI]
  constructor <;> trivial

/-- Witness for C7: one successful expiration with one surviving contract
and one raising expiration with message "boom". -/
theorem scan_partial_failure_witness :
    ((([Except.ok (7, [qGood]), Except.error "boom"]).filterMap
        (okSurvivors pW 50 deltaW)).flatten ≠ [])
    ∧ (scan pW 50 deltaW [Except.ok (7, [qGood]), Except.error "boom"]).skips
        = ([Except.ok (7, [qGood]), Except.error "boom"]).filterMap errOf := by
  have hrow : processExpiration pW 50 deltaW 7 [qGood] = [mkRow pW 50 deltaW 7 qGood] := by
    simp [processExpiration, deltaFilterStage, pyTruthy, mkRow, pW, qGood, deltaW]
    norm_num
  have h : (([Except.ok (7, [qGood]), Except.error "boom"]).filterMap
      (okSurvivors pW 50 deltaW)).flatten ≠ [] := by
    simp [okSurvivors, errOf, hrow]
  exact ⟨h, (scan_partial_failure pW 50 deltaW
    [Except.ok (7, [qGood]), Except.error "boom"] h).1⟩

/-- C1 (code bug): a scan in which one expiration is processed without
exception but no contract survives the filters does not report the
"no candidates" outcome — the empty survivor list is still appended to
`all_options`, so `if not all_options:` is not taken and `iloc[0]` on the
empty concatenated table raises an uncaught `IndexError`. Evaluated here
on one successful expiration whose only quote fails the spread filter. -/
theorem scan_zero_survivors_index_error :
    scan pW 50 deltaW [Except.ok (7, [qWide])]
      = { skips := [], outcome := ScanOutcome.indexError } := by
  have hrow : processExpiration pW 50 deltaW 7 [qWide] = [] := by
    simp [processExpiration, deltaFilterStage, pyTruthy, mkRow, pW, qWide, deltaW]
    norm_num
  have hloop : scanLoop pW 50 deltaW [Except.ok (7, [qWide])]
      = ([([] : List ScoredRow)], []) := by
    simp [scanLoop, hrow]
  simp [scan, hloop, rank]

end OptionsScanner
